import Mathlib

/-
Verification development for the Telegram webhook bot
(src/telegram_webhook_bot.py).

The program is a set of event handlers over four module-level mutable
structures keyed by user id:

  current_inline_message : Dict[int, Message]
  users_query            : Dict[int, CallbackQuery]
  users_subs_list        : list  (grown only by .append)
  users_waitingcryptocheck : set

We embed each handler as a pure function from the acting user's data and
the current state to the next state together with the list of outbound
calls it performs (the effect trace).  Outbound calls that the source
wraps in try/except are resolved by an `Env` oracle: a Bool per guarded
block deciding whether the block's calls succeed; on failure the handler
emits exactly the recovery effects of the corresponding except-clause.
Calls not wrapped in try/except are modelled as always succeeding.

Python strings are modelled as lists of characters (`Str`), with
executable translations of the string operations the source uses
(str.split, str.startswith, str.endswith, int(), str()), so that every
handler is fully computable and concrete runs can be settled by `decide`.
-/

namespace SiskiBot

/-- Python strings, modelled as lists of characters. -/
abbrev Str := List Char

/-- Embed a Lean string literal as a `Str`. -/
def strOf (s : String) : Str := s.data

/-- Python `s.split(c)` for a one-character separator `c`
(the source only ever splits on a single character). -/
def splitOnChar (c : Char) : Str → List Str
  | [] => [[]]
  | x :: xs =>
    if x = c then [] :: splitOnChar c xs
    else
      match splitOnChar c xs with
      | [] => [[x]]
      | r :: rs => (x :: r) :: rs

/-- Python `s.startswith(p)`. -/
def startsWith (s p : Str) : Bool := p.isPrefixOf s

/-- Python `s.endswith(p)`. -/
def endsWith (s p : Str) : Bool := p.isSuffixOf s

/-- Accumulating decimal parser for `pyInt`. -/
def parseDigitsAux : Str → Nat → Option Nat
  | [], acc => some acc
  | c :: cs, acc =>
    if c.isDigit then parseDigitsAux cs (acc * 10 + (c.toNat - 48)) else none

/-- Python `int(s)` on the strings this program builds: an optional sign
followed by decimal digits; anything else raises (returns `none`). -/
def pyInt : Str → Option Int
  | [] => none
  | '-' :: cs =>
    if cs = [] then none else (parseDigitsAux cs 0).map (fun n => -(n : Int))
  | cs => (parseDigitsAux cs 0).map (fun n => (n : Int))

/-- Digit expansion for `intToStr`, with fuel for structural recursion. -/
def natToDigitsAux : Nat → Nat → Str → Str
  | 0, _, acc => acc
  | fuel + 1, n, acc =>
    let d := Char.ofNat (n % 10 + 48)
    if n < 10 then d :: acc else natToDigitsAux fuel (n / 10) (d :: acc)

/-- Decimal rendering of a natural number. -/
def natToStr (n : Nat) : Str := natToDigitsAux (n + 1) n []

/-- Python `str(i)` on an integer. -/
def intToStr (i : Int) : Str :=
  if i < 0 then '-' :: natToStr i.natAbs else natToStr i.natAbs

/-- The outbound calls a handler performs, in order.  Each constructor is
one client-library call of the source; `buttons` carries the callback
data (or url) of the attached inline keyboard, row by row. -/
inductive Effect where
  | answerCallback : Effect
  | answerAlert (text : Str) : Effect
  | editMessageCaption (caption : Str) (buttons : List Str) : Effect
  | editMessageMedia (caption : Str) (buttons : List Str) : Effect
  | editMessageText (text : Str) : Effect
  | sendPhoto (chatId : Int) (caption : Str) (buttons : List Str) : Effect
  | sendMessage (chatId : Int) (text : Str) (buttons : List Str) : Effect
  | replyInvoice : Effect
  | replyText (text : Str) : Effect
  | answerPreCheckoutQuery (ok : Bool) (errorMessage : Option Str) : Effect
  | logError (msg : Str) : Effect
  | pyRuntimeError : Effect
  deriving DecidableEq, Repr

/-- The four module-level structures of the source.  Message objects are
abstracted to numeric references. -/
structure BotState where
  current_inline_message : Int → Option Nat
  users_query : Int → Option Nat
  users_subs_list : List Int
  users_waitingcryptocheck : Finset Int

/-- Oracle resolving each try/except-guarded block of outbound calls:
`true` means the block's calls succeed, `false` means the block raises
and the except-clause runs.  `sentMessageId` is the reference of the
message produced by the guarded send in the retry branch. -/
structure Env where
  helloPhotoOk : Bool
  paymentsPhotoOk : Bool
  thanksSendOk : Bool
  invoiceOk : Bool
  againSendOk : Bool
  forwardOk : Bool
  queryEditOk : Bool
  sentMessageId : Nat

/-- Line 70: `admin_ids = {MANAGER_ID} if MANAGER_ID != 0 else set()`. -/
def admin_ids (managerId : Int) : List Int :=
  if managerId ≠ 0 then [managerId] else []

/-- Line 75: configured invite link (default value). -/
def ONELINK : Str := strOf "https://t.me/yourchannel"

/-- Greeting text of `start_handler` (lines 101-107). -/
def text_hello (firstName : Str) : Str :=
  strOf "👋, " ++ firstName ++ strOf "!\n\n💗В моем личном канале вы найдете все, о чем всегда мечтали: мои самые горячие фото и видео 18+ 😈💋\nПосле оплаты вы сможете общаться со мной напрямую и получать эксклюзивный контент...\n\n💗On my personal channel, you will find everything you have always dreamed of: my hottest photos and videos 18+\n💗Ready?😉"

/-- Caption of the payment-method menu (line 176). -/
def choose_payment_text : Str := strOf "💲Выберите способ оплаты\n\n💲Choose a payment method"

/-- Deposit-address caption (lines 184, 224). -/
def usdt_address_text : Str := strOf "35 USDT TRC20\nTThh21cL3Thfv51hV2yeg1B5o9WSi2Vu54"

/-- Receipt-request caption (line 190). -/
def send_receipt_text : Str := strOf "Отправьте чек об оплате сюда👇🧾\n\nSend your payment receipt here👇🧾"

/-- Missing-context alert (line 198). -/
def no_original_message_text : Str := strOf "Не удалось найти исходное сообщение для выставления счёта"

/-- Invoice-failure log text (line 217). -/
def invoice_error_text : Str := strOf "Ошибка при создании invoice: проверьте PROVIDER_TOKEN и права бота на платежи"

/-- Rejection notice sent to the target user (line 157). -/
def trick_text : Str := strOf "Не пытайся меня обмануть 😜\n\nDon\x27t try to trick me. 😜"

/-- Permission-denied reply of the operator branch (line 159). -/
def no_rights_text : Str := strOf "Нет прав на выполнение этого действия или неверный формат данных"

/-- Welcome caption delivered with the invite link (lines 151, 284). -/
def welcome_caption : Str := strOf "💗Добро пожаловать💗\n\n💗Welcome💗"

/-- Redirect reply for a photo from a non-awaiting user (line 239). -/
def use_buttons_text : Str := strOf "Пожалуйста, используйте соответствующие кнопки для отправки чека."

/-- Please-resend reply for a receipt message without a photo (line 243). -/
def resend_receipt_text : Str := strOf "Вы не отправили чек, пожалуйста, отправьте его еще раз😊"

/-- Pending acknowledgment after forwarding a receipt (line 261). -/
def waiting_confirmation_text : Str := strOf "Ожидание подтверждения оплаты ⌛️\n\nWaiting for payment confirmation ⌛️"

/-- Retryable-error reply when forwarding a receipt fails (line 265). -/
def forward_error_text : Str := strOf "Ошибка при пересылке чека. Попробуйте ещё раз."

/-- Pre-checkout rejection reason (line 272). -/
def invalid_amount_text : Str := strOf "Неверная сумма заказа"

/-- Fallback reply (line 302). -/
def wrong_command_text : Str := strOf "Неверная команда.\n\nWrong command."

/-- Caption of a forwarded receipt (line 251). -/
def receipt_caption (uid : Int) (username : Option Str) : Str :=
  strOf "Чек от пользователя: @" ++ (match username with | some u => u | none => intToStr uid)
    ++ strOf " (id " ++ intToStr uid ++ strOf ")"

/-- Callback data of the operator Approve control (line 254). -/
def approve_button (uid : Int) : Str := strOf "admin_cryptopay_YES:" ++ intToStr uid

/-- Callback data of the operator Reject control (line 255). -/
def reject_button (uid : Int) : Str := strOf "admin_cryptopay_NO:" ++ intToStr uid

/-- Lines 90-115: `start_handler`.  `updateMessage` is `update.message`
(absent when invoked from a callback update); when present it is stored
in `current_inline_message`.  The greeting photo send is guarded by
try/except FileNotFoundError, falling back to a text message. -/
def start_handler (env : Env) (uid chatId : Int) (firstName : Str)
    (updateMessage : Option Nat) (s : BotState) : BotState × List Effect :=
  let s1 : BotState :=
    { s with current_inline_message :=
        match updateMessage with
        | some m => Function.update s.current_inline_message uid (some m)
        | none => s.current_inline_message }
  (s1,
   if env.helloPhotoOk then
     [Effect.sendPhoto chatId (text_hello firstName) [strOf "siski_gopay"]]
   else
     [Effect.logError (strOf "photo_hello.JPG not found"),
      Effect.sendMessage chatId (text_hello firstName) [strOf "siski_gopay"]])

/-- Lines 137-160: the operator-decision branch of
`callback_query_handler`, reached when `data` starts with
`admin_cryptopay_`.  The guard is `len(parts) == 2 and str(user.id) in
map(str, admin_ids)`; on failure the permission-denied text is shown.
In the `_YES` arm `int(target_user_id)` is evaluated before the append,
so a non-numeric target raises before any state change; in the `_NO` arm
the caption edit precedes the `int()` call. -/
def admin_callback_branch (env : Env) (managerId uid : Int) (data : Str)
    (s : BotState) : BotState × List Effect :=
  match splitOnChar ':' data with
  | [action_part, target_user_id] =>
    if ((admin_ids managerId).map (fun a => intToStr a)).contains (intToStr uid) then
      if endsWith action_part (strOf "_YES") then
        match pyInt target_user_id with
        | some t =>
          ({ s with users_subs_list := s.users_subs_list ++ [t] },
           Effect.editMessageCaption
               (strOf "Пользователь с id " ++ target_user_id ++ strOf " добавлен в список подписчиков") []
             :: (if env.thanksSendOk then
                   [Effect.sendPhoto t welcome_caption [ONELINK]]
                 else
                   [Effect.logError (strOf "Не удалось прислать сообщение подписчику")]))
        | none => (s, [Effect.pyRuntimeError])
      else if endsWith action_part (strOf "_NO") then
        match pyInt target_user_id with
        | some t =>
          (s, [Effect.editMessageCaption
                 (strOf "Пользователь с id " ++ target_user_id ++ strOf " не был добавлен в список подписчиков") [],
               Effect.sendMessage t trick_text [strOf "siski_gocryptopayagain"]])
        | none =>
          (s, [Effect.editMessageCaption
                 (strOf "Пользователь с id " ++ target_user_id ++ strOf " не был добавлен в список подписчиков") [],
               Effect.pyRuntimeError])
      else (s, [])
    else (s, [Effect.editMessageText no_rights_text])
  | _ => (s, [Effect.editMessageText no_rights_text])

/-- Lines 163-231: the navigation part of `callback_query_handler`
(every branch after the operator one).  The `start` branch re-invokes
`start_handler`; a callback update carries no `update.message`, so it is
invoked with `none`.  State-preserving branches are written with the
state component untouched so the frame is evident. -/
def navigation_branch (env : Env) (uid : Int) (firstName data : Str)
    (s : BotState) : BotState × List Effect :=
  if data = strOf "start" then
    start_handler env uid uid firstName none s
  else if data = strOf "siski_gopay" then
    (s,
     if env.paymentsPhotoOk then
       [Effect.editMessageMedia choose_payment_text [strOf "siski_gostarpay", strOf "siski_gocryptopay"]]
     else
       [Effect.editMessageCaption choose_payment_text [strOf "siski_gostarpay", strOf "siski_gocryptopay"]])
  else if data = strOf "siski_gocryptopay" then
    (s, [Effect.editMessageCaption usdt_address_text [strOf "siski_checkcryptopay", strOf "siski_gopay"]])
  else if data = strOf "siski_checkcryptopay" then
    ({ s with users_waitingcryptocheck := insert uid s.users_waitingcryptocheck },
     [Effect.editMessageCaption send_receipt_text [strOf "siski_gocryptopay"]])
  else if data = strOf "siski_gostarpay" then
    (s,
     match s.current_inline_message uid with
     | none => [Effect.answerAlert no_original_message_text]
     | some _ =>
       Effect.editMessageCaption (strOf "💕") []
         :: (if env.invoiceOk then [Effect.replyInvoice] else [Effect.logError invoice_error_text]))
  else if data = strOf "siski_gocryptopayagain" then
    ({ s with current_inline_message :=
         if env.againSendOk then
           Function.update s.current_inline_message uid (some env.sentMessageId)
         else s.current_inline_message },
     if env.againSendOk then
       [Effect.sendPhoto uid usdt_address_text [strOf "siski_checkcryptopay", strOf "siski_gopay"]]
     else
       [Effect.sendMessage uid usdt_address_text [strOf "siski_checkcryptopay", strOf "siski_gopay"]])
  else
    (s, [Effect.answerCallback])

/-- Lines 118-231: `callback_query_handler`.  It answers the callback
(line 124), discards the acting user from `users_waitingcryptocheck`
when the action token is not `siski_checkcryptopay` (lines 133-134),
then dispatches to the operator branch or to navigation. -/
def callback_query_handler (env : Env) (managerId uid : Int)
    (firstName data : Str) (s : BotState) : BotState × List Effect :=
  let s1 : BotState :=
    { s with users_waitingcryptocheck :=
        if data ≠ strOf "siski_checkcryptopay" ∧ uid ∈ s.users_waitingcryptocheck then
          s.users_waitingcryptocheck.erase uid
        else s.users_waitingcryptocheck }
  let r :=
    if startsWith data (strOf "admin_cryptopay_") then
      admin_callback_branch env managerId uid data s1
    else
      navigation_branch env uid firstName data s1
  (r.1, Effect.answerCallback :: r.2)

/-- Lines 234-265: `photo_message_handler`.  Rejects senders whose id is
not in `users_waitingcryptocheck`; asks to resend when the message has
no photo; otherwise forwards the photo to the operator with the
Approve/Reject controls keyed by the sender's id and acknowledges, the
forwarding block being guarded by try/except. -/
def photo_message_handler (env : Env) (managerId uid : Int)
    (username : Option Str) (hasPhoto : Bool) (s : BotState) : BotState × List Effect :=
  if uid ∉ s.users_waitingcryptocheck then
    (s, [Effect.replyText use_buttons_text])
  else if ¬ hasPhoto then
    (s, [Effect.replyText resend_receipt_text])
  else
    (s,
     if env.forwardOk then
       [Effect.sendPhoto managerId (receipt_caption uid username)
          [approve_button uid, reject_button uid],
        Effect.replyText waiting_confirmation_text]
     else
       [Effect.logError (strOf "Ошибка при пересылке чека"),
        Effect.replyText forward_error_text])

/-- Lines 268-274: `precheckout_handler`.  Touches no state. -/
def precheckout_handler (total_amount : Int) : List Effect :=
  if total_amount ≤ 0 then
    [Effect.answerPreCheckoutQuery false (some invalid_amount_text)]
  else
    [Effect.answerPreCheckoutQuery true none]

/-- Lines 277-296: `successful_payment_handler`.  The whole body is one
try-block: welcome photo send, then (when `users_query` holds an entry
for the payer) an inner guarded caption clear, then the subscriber
append.  If the welcome delivery raises, the except-clause logs and the
append never runs. -/
def successful_payment_handler (env : Env) (uid chatId : Int)
    (s : BotState) : BotState × List Effect :=
  if env.thanksSendOk then
    ({ s with users_subs_list := s.users_subs_list ++ [uid] },
     Effect.sendPhoto chatId welcome_caption [ONELINK]
       :: (match s.users_query uid with
           | some _ => if env.queryEditOk then [Effect.editMessageCaption (strOf " ") []] else []
           | none => []))
  else
    (s, [Effect.logError (strOf "Ошибка в successful_payment_handler")])

/-- Lines 299-302: `fallback_message_handler`.  Touches no state. -/
def fallback_message_handler (chatId : Int) (s : BotState) : BotState × List Effect :=
  (s, [Effect.sendMessage chatId wrong_command_text [strOf "start"]])

/-- An inbound (non-callback) update, with the attributes the dispatch
filters inspect. -/
structure MessageUpdate where
  uid : Int
  chatId : Int
  firstName : Str
  username : Option Str
  messageId : Nat
  hasPhoto : Bool
  isCommand : Bool
  isStartCommand : Bool
  isSuccessfulPayment : Bool

/-- Lines 306-311: handler registration.  All handlers are in the same
group, so for a message update the first matching handler runs:
`CommandHandler("start")`, then `filters.SUCCESSFUL_PAYMENT`, then
`filters.PHOTO & ~filters.COMMAND`, then `filters.ALL & ~filters.COMMAND`. -/
def process_message_update (env : Env) (managerId : Int)
    (msg : MessageUpdate) (s : BotState) : BotState × List Effect :=
  if msg.isStartCommand then
    start_handler env msg.uid msg.chatId msg.firstName (some msg.messageId) s
  else if msg.isSuccessfulPayment then
    successful_payment_handler env msg.uid msg.chatId s
  else if msg.hasPhoto ∧ ¬ msg.isCommand then
    photo_message_handler env managerId msg.uid msg.username msg.hasPhoto s
  else if ¬ msg.isCommand then
    fallback_message_handler msg.chatId s
  else (s, [])

/-- Oracle where every guarded outbound block succeeds. -/
def envAllOk : Env :=
  { helloPhotoOk := true, paymentsPhotoOk := true, thanksSendOk := true,
    invoiceOk := true, againSendOk := true, forwardOk := true,
    queryEditOk := true, sentMessageId := 100 }

/-- Oracle where the welcome-delivery block raises. -/
def envNoDeliver : Env := { envAllOk with thanksSendOk := false }

/-- Sample state: user 5 is awaiting a crypto receipt. -/
def stateW5 : BotState :=
  { current_inline_message := fun _ => none, users_query := fun _ => none,
    users_subs_list := [], users_waitingcryptocheck := {5} }

/-- Sample state: user 7 is already a subscriber. -/
def stateSubs7 : BotState :=
  { current_inline_message := fun _ => none, users_query := fun _ => none,
    users_subs_list := [7], users_waitingcryptocheck := ∅ }

/-- A text message from a user who is awaiting a receipt: no photo, not
a command, not a payment confirmation. -/
def messageTextWhileAwaiting : MessageUpdate :=
  { uid := 5, chatId := 5, firstName := [], username := none, messageId := 0,
    hasPhoto := false, isCommand := false, isStartCommand := false, isSuccessfulPayment := false }


/-- The operator branch never touches the waiting set, the message map or
the query map: it only ever appends to the subscriber list. -/
theorem admin_branch_frame (env : Env) (managerId uid : Int) (data : Str) (s : BotState) :
    (admin_callback_branch env managerId uid data s).1.users_waitingcryptocheck = s.users_waitingcryptocheck ∧
    (admin_callback_branch env managerId uid data s).1.current_inline_message = s.current_inline_message ∧
    (admin_callback_branch env managerId uid data s).1.users_query = s.users_query := by
  unfold admin_callback_branch
  split <;> try (exact ⟨rfl, rfl, rfl⟩)
  split <;> try (exact ⟨rfl, rfl, rfl⟩)
  · split
    · split <;> exact ⟨rfl, rfl, rfl⟩
    · split <;> try (exact ⟨rfl, rfl, rfl⟩)
      split <;> exact ⟨rfl, rfl, rfl⟩

/-- On any token other than the confirm-paid one, navigation preserves
the waiting set. -/
theorem navigation_branch_waiting (env : Env) (uid : Int) (firstName data : Str) (s : BotState)
    (h : data ≠ strOf "siski_checkcryptopay") :
    (navigation_branch env uid firstName data s).1.users_waitingcryptocheck = s.users_waitingcryptocheck := by
  unfold navigation_branch start_handler
  split_ifs <;> rfl

/-- When the operator check fails (or the token has not exactly one
colon), the operator branch replies with the permission-denied text and
leaves the state untouched. -/
theorem admin_branch_denied (env : Env) (managerId uid : Int) (data p t : Str) (s : BotState)
    (hsplit : splitOnChar ':' data = [p, t])
    (hadmin : ((admin_ids managerId).map (fun a => intToStr a)).contains (intToStr uid) = false) :
    admin_callback_branch env managerId uid data s = (s, [Effect.editMessageText no_rights_text]) := by
  have hnc : ¬ (((admin_ids managerId).map (fun a => intToStr a)).contains (intToStr uid) = true) := by
    rw [hadmin]; decide
  unfold admin_callback_branch
  rw [hsplit]
  dsimp only
  rw [if_neg hnc]

/-- The Approve arm of the operator branch: append the target to the
subscriber list, edit the caption, then attempt the welcome delivery. -/
theorem admin_branch_approve (env : Env) (managerId uid target : Int) (data p t : Str) (s : BotState)
    (hsplit : splitOnChar ':' data = [p, t])
    (hadmin : ((admin_ids managerId).map (fun a => intToStr a)).contains (intToStr uid) = true)
    (hyes : endsWith p (strOf "_YES") = true)
    (htarget : pyInt t = some target) :
    admin_callback_branch env managerId uid data s =
      ({ s with users_subs_list := s.users_subs_list ++ [target] },
       Effect.editMessageCaption
           (strOf "Пользователь с id " ++ t ++ strOf " добавлен в список подписчиков") []
         :: (if env.thanksSendOk then [Effect.sendPhoto target welcome_caption [ONELINK]]
             else [Effect.logError (strOf "Не удалось прислать сообщение подписчику")])) := by
  unfold admin_callback_branch
  rw [hsplit]
  dsimp only
  rw [if_pos hadmin, if_pos hyes, htarget]

/-- Evaluation of navigation at the native-checkout token. -/
theorem navigation_gostarpay (env : Env) (uid : Int) (firstName : Str) (s : BotState) :
    navigation_branch env uid firstName (strOf "siski_gostarpay") s =
      (s, match s.current_inline_message uid with
          | none => [Effect.answerAlert no_original_message_text]
          | some _ => Effect.editMessageCaption (strOf "💕") []
              :: (if env.invoiceOk then [Effect.replyInvoice] else [Effect.logError invoice_error_text])) := rfl

/-- C5: pressing any button whose action token is not
siski_checkcryptopay leaves the acting user outside the awaiting-receipt
set: a stale awaiting flag never survives navigation. -/
theorem c5_nonconfirm_token_clears_awaiting (env : Env) (managerId uid : Int)
    (firstName data : Str) (s : BotState)
    (h : data ≠ strOf "siski_checkcryptopay") :
    uid ∉ (callback_query_handler env managerId uid firstName data s).1.users_waitingcryptocheck := by
  simp only [callback_query_handler]
  set s1 : BotState :=
    { s with users_waitingcryptocheck :=
        if data ≠ strOf "siski_checkcryptopay" ∧ uid ∈ s.users_waitingcryptocheck then
          s.users_waitingcryptocheck.erase uid
        else s.users_waitingcryptocheck } with hs1
  have hw : (if startsWith data (strOf "admin_cryptopay_") then
        admin_callback_branch env managerId uid data s1
      else navigation_branch env uid firstName data s1).1.users_waitingcryptocheck
      = s1.users_waitingcryptocheck := by
    split
    · exact (admin_branch_frame env managerId uid data s1).1
    · exact navigation_branch_waiting env uid firstName data s1 h
  rw [hw]
  by_cases hm : uid ∈ s.users_waitingcryptocheck
  · have he : s1.users_waitingcryptocheck = s.users_waitingcryptocheck.erase uid := by
      rw [hs1]; exact if_pos ⟨h, hm⟩
    rw [he]; exact Finset.not_mem_erase uid _
  · have he : s1.users_waitingcryptocheck = s.users_waitingcryptocheck := by
      rw [hs1]; exact if_neg (fun hc => hm hc.2)
    rw [he]; exact hm

/-- C5 witness. -/
theorem c5_nonconfirm_token_clears_awaiting_witness :
    strOf "siski_gopay" ≠ strOf "siski_checkcryptopay" ∧
    (5 : Int) ∉ (callback_query_handler envAllOk 878251704 5 [] (strOf "siski_gopay") stateW5).1.users_waitingcryptocheck :=
  ⟨by decide,
   c5_nonconfirm_token_clears_awaiting envAllOk 878251704 5 [] (strOf "siski_gopay") stateW5 (by decide)⟩

/-- Evaluation of navigation at the native-checkout token when no prior
interactive message is on record for the user. -/
theorem navigation_gostarpay_none (env : Env) (uid : Int) (firstName : Str) (s : BotState)
    (h : s.current_inline_message uid = none) :
    navigation_branch env uid firstName (strOf "siski_gostarpay") s =
      (s, [Effect.answerAlert no_original_message_text]) := by
  rw [navigation_gostarpay, h]

/-- C1 amended: a non-operator pressing an operator-decision button gets
the permission-denied reply; the subscriber list, message map and query
map are unchanged and the awaiting-receipt set gains no entry (the
acting user is removed from it, per the stale-flag rule of lines
133-134). -/
theorem c1_nonoperator_decision_denied (env : Env) (managerId uid : Int)
    (firstName data p t : Str) (s : BotState)
    (hfmt : startsWith data (strOf "admin_cryptopay_") = true)
    (hsplit : splitOnChar ':' data = [p, t])
    (hadmin : ((admin_ids managerId).map (fun a => intToStr a)).contains (intToStr uid) = false) :
    (callback_query_handler env managerId uid firstName data s).1.users_subs_list = s.users_subs_list ∧
    (callback_query_handler env managerId uid firstName data s).1.current_inline_message = s.current_inline_message ∧
    (callback_query_handler env managerId uid firstName data s).1.users_query = s.users_query ∧
    (callback_query_handler env managerId uid firstName data s).1.users_waitingcryptocheck = s.users_waitingcryptocheck.erase uid ∧
    Effect.editMessageText no_rights_text ∈ (callback_query_handler env managerId uid firstName data s).2 := by
  have hne : data ≠ strOf "siski_checkcryptopay" := by
    intro hd
    rw [hd] at hfmt
    exact absurd hfmt (by decide)
  simp only [callback_query_handler]
  rw [if_pos hfmt, admin_branch_denied env managerId uid data p t _ hsplit hadmin]
  refine ⟨rfl, rfl, rfl, ?_, by simp⟩
  by_cases hm : uid ∈ s.users_waitingcryptocheck
  · exact if_pos ⟨hne, hm⟩
  · rw [if_neg (fun hc => hm hc.2), Finset.erase_eq_of_not_mem hm]

/-- C1 counterexample to the claim as stated: a non-operator who is
themselves awaiting a receipt presses an operator-decision button, and
the conversation state does change (their awaiting flag is cleared). -/
theorem c1_claim_counterexample :
    startsWith (strOf "admin_cryptopay_YES:7") (strOf "admin_cryptopay_") = true ∧
    ((admin_ids 878251704).map (fun a => intToStr a)).contains (intToStr (5 : Int)) = false ∧
    (callback_query_handler envAllOk 878251704 5 [] (strOf "admin_cryptopay_YES:7") stateW5).1.users_waitingcryptocheck
      ≠ stateW5.users_waitingcryptocheck := by decide

/-- C1 witness. -/
theorem c1_nonoperator_decision_denied_witness :
    startsWith (strOf "admin_cryptopay_YES:7") (strOf "admin_cryptopay_") = true ∧
    splitOnChar ':' (strOf "admin_cryptopay_YES:7") = [strOf "admin_cryptopay_YES", strOf "7"] ∧
    ((admin_ids 878251704).map (fun a => intToStr a)).contains (intToStr (5 : Int)) = false ∧
    ((callback_query_handler envAllOk 878251704 5 [] (strOf "admin_cryptopay_YES:7") stateW5).1.users_subs_list = stateW5.users_subs_list ∧
     (callback_query_handler envAllOk 878251704 5 [] (strOf "admin_cryptopay_YES:7") stateW5).1.current_inline_message = stateW5.current_inline_message ∧
     (callback_query_handler envAllOk 878251704 5 [] (strOf "admin_cryptopay_YES:7") stateW5).1.users_query = stateW5.users_query ∧
     (callback_query_handler envAllOk 878251704 5 [] (strOf "admin_cryptopay_YES:7") stateW5).1.users_waitingcryptocheck = stateW5.users_waitingcryptocheck.erase 5 ∧
     Effect.editMessageText no_rights_text ∈ (callback_query_handler envAllOk 878251704 5 [] (strOf "admin_cryptopay_YES:7") stateW5).2) :=
  ⟨by decide, by decide, by decide,
   c1_nonoperator_decision_denied envAllOk 878251704 5 [] (strOf "admin_cryptopay_YES:7")
     (strOf "admin_cryptopay_YES") (strOf "7") stateW5 (by decide) (by decide) (by decide)⟩

/-- C2: an operator Approve action always leaves the target user id in
the subscriber list, for every oracle (so in particular whether or not
the welcome delivery to the target succeeds). -/
theorem c2_approve_grants_membership (env : Env) (managerId uid target : Int)
    (firstName data p t : Str) (s : BotState)
    (hfmt : startsWith data (strOf "admin_cryptopay_") = true)
    (hsplit : splitOnChar ':' data = [p, t])
    (hadmin : ((admin_ids managerId).map (fun a => intToStr a)).contains (intToStr uid) = true)
    (hyes : endsWith p (strOf "_YES") = true)
    (htarget : pyInt t = some target) :
    target ∈ (callback_query_handler env managerId uid firstName data s).1.users_subs_list := by
  simp only [callback_query_handler]
  rw [if_pos hfmt, admin_branch_approve env managerId uid target data p t _ hsplit hadmin hyes htarget]
  simp

/-- C2 witness: the oracle used here makes the welcome delivery fail,
and the membership grant still happens. -/
theorem c2_approve_grants_membership_witness :
    startsWith (strOf "admin_cryptopay_YES:7") (strOf "admin_cryptopay_") = true ∧
    splitOnChar ':' (strOf "admin_cryptopay_YES:7") = [strOf "admin_cryptopay_YES", strOf "7"] ∧
    ((admin_ids 878251704).map (fun a => intToStr a)).contains (intToStr (878251704 : Int)) = true ∧
    endsWith (strOf "admin_cryptopay_YES") (strOf "_YES") = true ∧
    pyInt (strOf "7") = some 7 ∧
    (7 : Int) ∈ (callback_query_handler envNoDeliver 878251704 878251704 [] (strOf "admin_cryptopay_YES:7") stateW5).1.users_subs_list :=
  ⟨by decide, by decide, by decide, by decide, by decide,
   c2_approve_grants_membership envNoDeliver 878251704 878251704 7 [] (strOf "admin_cryptopay_YES:7")
     (strOf "admin_cryptopay_YES") (strOf "7") stateW5 (by decide) (by decide) (by decide) (by decide) (by decide)⟩

/-- C3: an inbound image is forwarded to the operator (with the
Approve/Reject controls keyed by the sender id and a pending
acknowledgment to the sender) if and only if the sender is in the
awaiting-receipt set; otherwise the sender gets the redirect reply and
nothing is forwarded, with no state change. -/
theorem c3_receipt_forward_iff_awaiting (env : Env) (managerId uid : Int)
    (username : Option Str) (s : BotState)
    (hok : env.forwardOk = true) :
    ((∃ cap buttons, Effect.sendPhoto managerId cap buttons ∈ (photo_message_handler env managerId uid username true s).2) ↔
        uid ∈ s.users_waitingcryptocheck) ∧
    (uid ∈ s.users_waitingcryptocheck →
        Effect.sendPhoto managerId (receipt_caption uid username) [approve_button uid, reject_button uid]
            ∈ (photo_message_handler env managerId uid username true s).2 ∧
        Effect.replyText waiting_confirmation_text ∈ (photo_message_handler env managerId uid username true s).2) ∧
    (uid ∉ s.users_waitingcryptocheck →
        (photo_message_handler env managerId uid username true s).1 = s ∧
        Effect.replyText use_buttons_text ∈ (photo_message_handler env managerId uid username true s).2 ∧
        ∀ chatId cap buttons, Effect.sendPhoto chatId cap buttons ∉ (photo_message_handler env managerId uid username true s).2) := by
  unfold photo_message_handler
  by_cases hm : uid ∈ s.users_waitingcryptocheck
  · rw [if_neg (not_not.mpr hm), if_neg (by simp), if_pos hok]
    refine ⟨⟨fun _ => hm, ?_⟩, fun _ => ⟨by simp, by simp⟩, fun hc => absurd hm hc⟩
    intro _
    exact ⟨receipt_caption uid username, [approve_button uid, reject_button uid], by simp⟩
  · rw [if_pos hm]
    refine ⟨⟨?_, fun hc => absurd hc hm⟩, fun hc => absurd hc hm, fun _ => ⟨rfl, by simp, ?_⟩⟩
    · rintro ⟨cap, buttons, hmem⟩
      simp at hmem
    · intro chatId cap buttons hmem
      simp at hmem

/-- C3 witness. -/
theorem c3_receipt_forward_iff_awaiting_witness :
    envAllOk.forwardOk = true ∧
    (((∃ cap buttons, Effect.sendPhoto 878251704 cap buttons ∈ (photo_message_handler envAllOk 878251704 5 none true stateW5).2) ↔
        (5 : Int) ∈ stateW5.users_waitingcryptocheck) ∧
     ((5 : Int) ∈ stateW5.users_waitingcryptocheck →
        Effect.sendPhoto 878251704 (receipt_caption 5 none) [approve_button 5, reject_button 5]
            ∈ (photo_message_handler envAllOk 878251704 5 none true stateW5).2 ∧
        Effect.replyText waiting_confirmation_text ∈ (photo_message_handler envAllOk 878251704 5 none true stateW5).2) ∧
     ((5 : Int) ∉ stateW5.users_waitingcryptocheck →
        (photo_message_handler envAllOk 878251704 5 none true stateW5).1 = stateW5 ∧
        Effect.replyText use_buttons_text ∈ (photo_message_handler envAllOk 878251704 5 none true stateW5).2 ∧
        ∀ chatId cap buttons, Effect.sendPhoto chatId cap buttons ∉ (photo_message_handler envAllOk 878251704 5 none true stateW5).2)) :=
  ⟨rfl, c3_receipt_forward_iff_awaiting envAllOk 878251704 5 none stateW5 rfl⟩

/-- C4: pre-checkout validation rejects with the invalid-amount reason
exactly when the amount is non-positive and approves exactly when it is
strictly positive. -/
theorem c4_precheckout_validation (total_amount : Int) :
    (Effect.answerPreCheckoutQuery false (some invalid_amount_text) ∈ precheckout_handler total_amount ↔ total_amount ≤ 0) ∧
    (Effect.answerPreCheckoutQuery true none ∈ precheckout_handler total_amount ↔ 0 < total_amount) := by
  unfold precheckout_handler
  rcases le_or_lt total_amount 0 with h | h
  · rw [if_pos h]
    refine ⟨by simp [h], ⟨fun hx => by simp at hx, fun hx => absurd hx (not_lt.mpr h)⟩⟩
  · rw [if_neg (not_le.mpr h)]
    refine ⟨⟨fun hx => by simp at hx, fun hx => absurd hx (not_le.mpr h)⟩, by simp [h]⟩

/-- C6 amended: an unrecognized action token is acknowledged (the only
effects are the two callback answers, so no visible message), the
subscriber list and the message and query maps are unchanged, and the
only state change is the stale-flag clearing of lines 133-134. -/
theorem c6_unknown_token_silent (env : Env) (managerId uid : Int) (firstName data : Str) (s : BotState)
    (h1 : startsWith data (strOf "admin_cryptopay_") = false)
    (h2 : data ∉ [strOf "start", strOf "siski_gopay", strOf "siski_gocryptopay",
        strOf "siski_checkcryptopay", strOf "siski_gostarpay", strOf "siski_gocryptopayagain"]) :
    (callback_query_handler env managerId uid firstName data s).2 = [Effect.answerCallback, Effect.answerCallback] ∧
    (callback_query_handler env managerId uid firstName data s).1.users_subs_list = s.users_subs_list ∧
    (callback_query_handler env managerId uid firstName data s).1.current_inline_message = s.current_inline_message ∧
    (callback_query_handler env managerId uid firstName data s).1.users_query = s.users_query ∧
    (callback_query_handler env managerId uid firstName data s).1.users_waitingcryptocheck = s.users_waitingcryptocheck.erase uid := by
  have hne : data ≠ strOf "start" ∧ data ≠ strOf "siski_gopay" ∧ data ≠ strOf "siski_gocryptopay" ∧
      data ≠ strOf "siski_checkcryptopay" ∧ data ≠ strOf "siski_gostarpay" ∧ data ≠ strOf "siski_gocryptopayagain" := by
    simpa [not_or] using h2
  obtain ⟨d1, d2, d3, d4, d5, d6⟩ := hne
  simp only [callback_query_handler]
  rw [if_neg (by rw [h1]; decide)]
  unfold navigation_branch
  rw [if_neg d1, if_neg d2, if_neg d3, if_neg d4, if_neg d5, if_neg d6]
  refine ⟨rfl, rfl, rfl, rfl, ?_⟩
  by_cases hm : uid ∈ s.users_waitingcryptocheck
  · exact if_pos ⟨d4, hm⟩
  · rw [if_neg (fun hc => hm hc.2), Finset.erase_eq_of_not_mem hm]

/-- C6 counterexample to the claim as stated: an unrecognized token
pressed by a user who is awaiting a receipt does change state (the
awaiting flag is cleared), even though only the two silent
acknowledgments are emitted. -/
theorem c6_claim_counterexample :
    startsWith (strOf "bogus") (strOf "admin_cryptopay_") = false ∧
    (strOf "bogus") ∉ [strOf "start", strOf "siski_gopay", strOf "siski_gocryptopay",
      strOf "siski_checkcryptopay", strOf "siski_gostarpay", strOf "siski_gocryptopayagain"] ∧
    (callback_query_handler envAllOk 878251704 5 [] (strOf "bogus") stateW5).2 = [Effect.answerCallback, Effect.answerCallback] ∧
    (callback_query_handler envAllOk 878251704 5 [] (strOf "bogus") stateW5).1.users_waitingcryptocheck
      ≠ stateW5.users_waitingcryptocheck := by decide

/-- C6 witness. -/
theorem c6_unknown_token_silent_witness :
    startsWith (strOf "zzz") (strOf "admin_cryptopay_") = false ∧
    (strOf "zzz") ∉ [strOf "start", strOf "siski_gopay", strOf "siski_gocryptopay",
      strOf "siski_checkcryptopay", strOf "siski_gostarpay", strOf "siski_gocryptopayagain"] ∧
    ((callback_query_handler envAllOk 878251704 5 [] (strOf "zzz") stateW5).2 = [Effect.answerCallback, Effect.answerCallback] ∧
     (callback_query_handler envAllOk 878251704 5 [] (strOf "zzz") stateW5).1.users_subs_list = stateW5.users_subs_list ∧
     (callback_query_handler envAllOk 878251704 5 [] (strOf "zzz") stateW5).1.current_inline_message = stateW5.current_inline_message ∧
     (callback_query_handler envAllOk 878251704 5 [] (strOf "zzz") stateW5).1.users_query = stateW5.users_query ∧
     (callback_query_handler envAllOk 878251704 5 [] (strOf "zzz") stateW5).1.users_waitingcryptocheck = stateW5.users_waitingcryptocheck.erase 5) :=
  ⟨by decide, by decide,
   c6_unknown_token_silent envAllOk 878251704 5 [] (strOf "zzz") stateW5 (by decide) (by decide)⟩

/-- C7: selecting native checkout with no prior interactive message on
record yields the missing-context alert and no invoice call. -/
theorem c7_native_checkout_missing_context (env : Env) (managerId uid : Int)
    (firstName : Str) (s : BotState)
    (h : s.current_inline_message uid = none) :
    Effect.answerAlert no_original_message_text ∈ (callback_query_handler env managerId uid firstName (strOf "siski_gostarpay") s).2 ∧
    Effect.replyInvoice ∉ (callback_query_handler env managerId uid firstName (strOf "siski_gostarpay") s).2 := by
  simp only [callback_query_handler]
  rw [if_neg (by decide : ¬ (startsWith (strOf "siski_gostarpay") (strOf "admin_cryptopay_") = true))]
  set s1 : BotState :=
    { s with users_waitingcryptocheck :=
        if strOf "siski_gostarpay" ≠ strOf "siski_checkcryptopay" ∧ uid ∈ s.users_waitingcryptocheck then
          s.users_waitingcryptocheck.erase uid
        else s.users_waitingcryptocheck } with hs1
  rw [navigation_gostarpay_none env uid firstName s1 h]
  exact ⟨by simp, by simp⟩

/-- C7 witness. -/
theorem c7_native_checkout_missing_context_witness :
    stateW5.current_inline_message (5 : Int) = none ∧
    (Effect.answerAlert no_original_message_text ∈ (callback_query_handler envAllOk 878251704 5 [] (strOf "siski_gostarpay") stateW5).2 ∧
     Effect.replyInvoice ∉ (callback_query_handler envAllOk 878251704 5 [] (strOf "siski_gostarpay") stateW5).2) :=
  ⟨rfl, c7_native_checkout_missing_context envAllOk 878251704 5 [] stateW5 rfl⟩

/-- C8 amended: when the welcome delivery succeeds, post-payment
fulfillment grants membership, sends the access reward, and clears the
stale caption when a query is on record; when the delivery raises, the
handler only logs and in particular no membership grant happens (see the
counterexample), unlike operator Approve. -/
theorem c8_fulfillment_grants_on_delivery_success (env : Env) (uid chatId : Int) (s : BotState)
    (hok : env.thanksSendOk = true) :
    uid ∈ (successful_payment_handler env uid chatId s).1.users_subs_list ∧
    Effect.sendPhoto chatId welcome_caption [ONELINK] ∈ (successful_payment_handler env uid chatId s).2 ∧
    (∀ q : Nat, s.users_query uid = some q → env.queryEditOk = true →
        Effect.editMessageCaption (strOf " ") [] ∈ (successful_payment_handler env uid chatId s).2) := by
  unfold successful_payment_handler
  rw [if_pos hok]
  refine ⟨by simp, by simp, ?_⟩
  intro q hq hedit
  rw [hq]
  simp [hedit]

/-- C8 counterexample to the claim as stated: when the welcome delivery
raises, the payer is not granted membership (the append sits inside the
same try-block, after the send), so fulfillment does not mirror Approve. -/
theorem c8_claim_counterexample :
    envNoDeliver.thanksSendOk = false ∧
    (9 : Int) ∉ (successful_payment_handler envNoDeliver 9 9 stateW5).1.users_subs_list ∧
    (successful_payment_handler envNoDeliver 9 9 stateW5).2 = [Effect.logError (strOf "Ошибка в successful_payment_handler")] := by
  decide

/-- C8 witness. -/
theorem c8_fulfillment_grants_on_delivery_success_witness :
    envAllOk.thanksSendOk = true ∧
    ((9 : Int) ∈ (successful_payment_handler envAllOk 9 9 stateW5).1.users_subs_list ∧
     Effect.sendPhoto 9 welcome_caption [ONELINK] ∈ (successful_payment_handler envAllOk 9 9 stateW5).2 ∧
     (∀ q : Nat, stateW5.users_query 9 = some q → envAllOk.queryEditOk = true →
        Effect.editMessageCaption (strOf " ") [] ∈ (successful_payment_handler envAllOk 9 9 stateW5).2)) :=
  ⟨rfl, c8_fulfillment_grants_on_delivery_success envAllOk 9 9 stateW5 rfl⟩

/-- C9: a non-image text message from a user whose awaiting flag is true
is routed to the fallback handler (the photo handler is registered with
a PHOTO filter), so the user receives the wrong-command reply and never
the please-resend reply of line 243; the state is unchanged. -/
theorem c9_text_from_awaiting_user_hits_fallback :
    (5 : Int) ∈ stateW5.users_waitingcryptocheck ∧
    (process_message_update envAllOk 878251704 messageTextWhileAwaiting stateW5).1 = stateW5 ∧
    (process_message_update envAllOk 878251704 messageTextWhileAwaiting stateW5).2 =
      [Effect.sendMessage 5 wrong_command_text [strOf "start"]] ∧
    Effect.replyText resend_receipt_text ∉ (process_message_update envAllOk 878251704 messageTextWhileAwaiting stateW5).2 :=
  ⟨by decide, rfl, by decide, by decide⟩

/-- C10 amended: the subscriber list is a plain append-only list, so a
repeated grant preserves the set of member ids (membership is idempotent
at the level of ∈) while appending a duplicate entry. -/
theorem c10_regrant_keeps_membership_set (env : Env) (managerId uid target : Int)
    (firstName data p t : Str) (s : BotState)
    (hfmt : startsWith data (strOf "admin_cryptopay_") = true)
    (hsplit : splitOnChar ':' data = [p, t])
    (hadmin : ((admin_ids managerId).map (fun a => intToStr a)).contains (intToStr uid) = true)
    (hyes : endsWith p (strOf "_YES") = true)
    (htarget : pyInt t = some target)
    (hmem : target ∈ s.users_subs_list) :
    (∀ x : Int, x ∈ (callback_query_handler env managerId uid firstName data s).1.users_subs_list ↔ x ∈ s.users_subs_list) ∧
    (∀ payer chatId : Int, payer ∈ s.users_subs_list →
      ∀ x : Int, x ∈ (successful_payment_handler env payer chatId s).1.users_subs_list ↔ x ∈ s.users_subs_list) := by
  constructor
  · intro x
    simp only [callback_query_handler]
    rw [if_pos hfmt, admin_branch_approve env managerId uid target data p t _ hsplit hadmin hyes htarget]
    show x ∈ s.users_subs_list ++ [target] ↔ x ∈ s.users_subs_list
    simp only [List.mem_append, List.mem_singleton]
    exact ⟨fun hx => hx.elim id (fun he => he ▸ hmem), fun hx => Or.inl hx⟩
  · intro payer chatId hp x
    unfold successful_payment_handler
    by_cases hok : env.thanksSendOk = true
    · rw [if_pos hok]
      show x ∈ s.users_subs_list ++ [payer] ↔ x ∈ s.users_subs_list
      simp only [List.mem_append, List.mem_singleton]
      exact ⟨fun hx => hx.elim id (fun he => he ▸ hp), fun hx => Or.inl hx⟩
    · rw [if_neg hok]

/-- C10 counterexample to the claim as stated: a second Approve of an
existing member appends a duplicate entry to the list. -/
theorem c10_claim_counterexample :
    (7 : Int) ∈ stateSubs7.users_subs_list ∧
    (callback_query_handler envAllOk 878251704 878251704 [] (strOf "admin_cryptopay_YES:7") stateSubs7).1.users_subs_list = [7, 7] ∧
    ¬ ((callback_query_handler envAllOk 878251704 878251704 [] (strOf "admin_cryptopay_YES:7") stateSubs7).1.users_subs_list).Nodup := by
  decide

/-- C10 witness. -/
theorem c10_regrant_keeps_membership_set_witness :
    startsWith (strOf "admin_cryptopay_YES:7") (strOf "admin_cryptopay_") = true ∧
    splitOnChar ':' (strOf "admin_cryptopay_YES:7") = [strOf "admin_cryptopay_YES", strOf "7"] ∧
    ((admin_ids 878251704).map (fun a => intToStr a)).contains (intToStr (878251704 : Int)) = true ∧
    endsWith (strOf "admin_cryptopay_YES") (strOf "_YES") = true ∧
    pyInt (strOf "7") = some 7 ∧
    (7 : Int) ∈ stateSubs7.users_subs_list ∧
    ((∀ x : Int, x ∈ (callback_query_handler envAllOk 878251704 878251704 [] (strOf "admin_cryptopay_YES:7") stateSubs7).1.users_subs_list ↔ x ∈ stateSubs7.users_subs_list) ∧
     (∀ payer chatId : Int, payer ∈ stateSubs7.users_subs_list →
        ∀ x : Int, x ∈ (successful_payment_handler envAllOk payer chatId stateSubs7).1.users_subs_list ↔ x ∈ stateSubs7.users_subs_list)) :=
  ⟨by decide, by decide, by decide, by decide, by decide, by decide,
   c10_regrant_keeps_membership_set envAllOk 878251704 878251704 7 [] (strOf "admin_cryptopay_YES:7")
     (strOf "admin_cryptopay_YES") (strOf "7") stateSubs7 (by decide) (by decide) (by decide) (by decide) (by decide) (by decide)⟩

end SiskiBot
